import Mathlib

/-
Shallow embedding of the dual-state morphing engine:
- src/store.ts            (TreeState toggle, isMorphing flag)
- src/unnamed/part_000    (Foliage component: scatter/tree layout generation,
                           per-frame progress update, vertex shader motion)
- src/components/Experience.tsx (useDualStateInstances layout generation,
                           InstancedOrnaments per-frame update and transforms)
Floating-point arithmetic is embedded as real arithmetic; random samples
appear as explicit parameters ranging over [0,1).
-/

namespace Morph

/-- TreeState from src/types.ts: the two-valued target-shape signal. -/
inductive TreeState
  | SCATTERED
  | TREE_SHAPE
  deriving DecidableEq

/-- The store state from src/store.ts (treeState and isMorphing fields). -/
structure AppState where
  treeState : TreeState
  isMorphing : Bool
  deriving DecidableEq

/-- toggleState from src/store.ts: flips treeState between the two shapes and
sets isMorphing to true. -/
def toggleState (s : AppState) : AppState :=
  { treeState := if s.treeState = TreeState.TREE_SHAPE
                   then TreeState.SCATTERED else TreeState.TREE_SHAPE,
    isMorphing := true }

noncomputable section

/-- THREE.MathUtils.lerp from the three.js library (used by both useFrame
bodies): lerp(x, y, t) = (1 - t) * x + t * y. -/
def lerp (x y t : ℝ) : ℝ := (1 - t) * x + t * y

/-- The target value computed each frame from the shared store signal:
`const target = treeState === TreeState.TREE_SHAPE ? 1 : 0`. -/
def targetFor (s : TreeState) : ℝ :=
  if s = TreeState.TREE_SHAPE then 1 else 0

/-- Foliage.useFrame progress update (src/unnamed/part_000, lines 199-204):
`progressRef.current = THREE.MathUtils.lerp(progressRef.current, target, delta * 1.5)`. -/
def foliageProgressUpdate (p target delta : ℝ) : ℝ :=
  lerp p target (delta * 1.5)

/-- InstancedOrnaments lerpSpeed (Experience.tsx line 178):
`const lerpSpeed = type === 'box' ? 1.0 : 1.5`. -/
def ornamentLerpSpeed (isBox : Bool) : ℝ :=
  if isBox then 1.0 else 1.5

/-- InstancedOrnaments.useFrame progress update (Experience.tsx lines 181-187):
snap to target when within 0.001, otherwise
`THREE.MathUtils.lerp(progressRef.current, target, delta * lerpSpeed)`. -/
def ornamentProgressUpdate (p target delta lerpSpeed : ℝ) : ℝ :=
  if |p - target| < 0.001 then target
  else lerp p target (delta * lerpSpeed)

/-- Cubic ease-in-out, as written identically in the foliage vertex shader
(easeInOutCubic, src/unnamed/part_000 lines 70-72) and inline in
InstancedOrnaments.useFrame (Experience.tsx line 192). -/
def easeInOutCubic (x : ℝ) : ℝ :=
  if x < 0.5 then 4.0 * x * x * x else 1.0 - (-2.0 * x + 2.0) ^ 3 / 2.0

/-- N successive frames of the foliage progress update with a constant target
and a constant per-frame delta. -/
def foliageSteps (target delta : ℝ) : ℕ → ℝ → ℝ
  | 0, p => p
  | n + 1, p => foliageSteps target delta n (foliageProgressUpdate p target delta)

/-- A finite sequence of foliage progress updates with per-frame
(target, delta) pairs. -/
def foliageRun (p : ℝ) (frames : List (ℝ × ℝ)) : ℝ :=
  frames.foldl (fun q td => foliageProgressUpdate q td.1 td.2) p

/-- GLSL mix, as used by the vertex shader: mix(x, y, a) = x*(1-a) + y*a. -/
def mixG (x y a : ℝ) : ℝ := x * (1 - a) + y * a

/-- The foliage vertex shader position computation (src/unnamed/part_000
lines 74-101): morphed base position via mix with the eased progress, then
breath and turbulence added to y and drift added to x. -/
def foliageVertex (scatterPos treePos : ℝ × ℝ × ℝ) (uTime aRandom uProgress : ℝ) :
    ℝ × ℝ × ℝ :=
  let easedProgress := easeInOutCubic uProgress
  let fx := mixG scatterPos.1 treePos.1 easedProgress
  let fy := mixG scatterPos.2.1 treePos.2.1 easedProgress
  let fz := mixG scatterPos.2.2 treePos.2.2 easedProgress
  let breath := Real.sin (uTime * 2.0 + aRandom * 10.0) * 0.05
  let turbulence := Real.sin (uTime + scatterPos.1) * 0.1 * (1.0 - easedProgress)
  (fx + Real.cos (uTime * 1.5 + aRandom) * 0.02, fy + breath + turbulence, fz)

/-- Foliage scatter radius (src/unnamed/part_000 line 151):
`const rScatter = 15 * Math.cbrt(Math.random())`, with cbrt embedded as the
real power u ^ (1/3). -/
def foliageScatterRadius (u : ℝ) : ℝ := 15 * u ^ ((1 : ℝ) / 3)

/-- Foliage scatter-position generation (src/unnamed/part_000 lines 150-161):
r = 15 * cbrt(u1), theta = u2 * 2 * pi, phi = acos(2 * u3 - 1), spherical to
Cartesian. -/
def foliageScatter (u1 u2 u3 : ℝ) : ℝ × ℝ × ℝ :=
  let rScatter := foliageScatterRadius u1
  let thetaScatter := u2 * 2 * Real.pi
  let phiScatter := Real.arccos (2 * u3 - 1)
  (rScatter * Real.sin phiScatter * Real.cos thetaScatter,
   rScatter * Real.sin phiScatter * Real.sin thetaScatter,
   rScatter * Real.cos phiScatter)

/-- Ornament scatter radius (Experience.tsx line 118):
`const rScatter = 10 + Math.random() * 10`. -/
def ornamentScatterRadius (u : ℝ) : ℝ := 10 + u * 10

/-- Modelled from the spec: the scatter radius law the spec prescribes for
every group, `r = R * cbrt(u)`. Declared only to be compared with the
radius laws the code actually uses. -/
def specScatterRadius (R u : ℝ) : ℝ := R * u ^ ((1 : ℝ) / 3)

/-- Ornament scatter-position generation (Experience.tsx lines 117-123):
shell radius 10 + 10*u1, then the same spherical-to-Cartesian conversion. -/
def ornamentScatter (u1 u2 u3 : ℝ) : ℝ × ℝ × ℝ :=
  let rScatter := ornamentScatterRadius u1
  let theta := u2 * 2 * Real.pi
  let phi := Real.arccos (2 * u3 - 1)
  (rScatter * Real.sin phi * Real.cos theta,
   rScatter * Real.sin phi * Real.sin theta,
   rScatter * Real.cos phi)

/-- Foliage tree-position generation (src/unnamed/part_000 lines 163-182):
cone of height 14 and base radius 5, golden-angle azimuth by index, radial
jitter (u - 0.5) * 0.5. Stored as (tx, ty, tz). -/
def foliageTreePos (i : ℕ) (hNorm u : ℝ) : ℝ × ℝ × ℝ :=
  let treeHeight : ℝ := 14
  let treeRadiusBase : ℝ := 5
  let h := hNorm * treeHeight - treeHeight / 2
  let currentRadius := (1 - hNorm) * treeRadiusBase
  let angle := (i : ℝ) * 137.5 * (Real.pi / 180)
  let rOffset := (u - 0.5) * 0.5
  (Real.cos angle * (currentRadius + rOffset), h,
   Real.sin angle * (currentRadius + rOffset))

/-- Ornament tree-position generation (Experience.tsx lines 107-115):
cone of height 12 and base radius 4.5 plus a constant 0.2 outward offset,
uniformly random azimuth, no jitter. -/
def ornamentTreePos (hNorm uAngle : ℝ) : ℝ × ℝ × ℝ :=
  let treeHeight : ℝ := 12
  let treeRadiusBase : ℝ := 4.5
  let h := hNorm * treeHeight - treeHeight / 2
  let currentRadius := (1 - hNorm) * treeRadiusBase + 0.2
  let angle := uAngle * Real.pi * 2
  (Real.cos angle * currentRadius, h, Real.sin angle * currentRadius)

/-- Euclidean distance of a point from the origin. -/
def distOrigin (v : ℝ × ℝ × ℝ) : ℝ :=
  Real.sqrt (v.1 ^ 2 + v.2.1 ^ 2 + v.2.2 ^ 2)

/-- Distance of a point from the vertical (y) axis. -/
def axisDist (v : ℝ × ℝ × ℝ) : ℝ :=
  Real.sqrt (v.1 ^ 2 + v.2.2 ^ 2)

/-- DualPosition from src/types.ts: the per-element immutable data for one
ornament instance. -/
structure DualPosition where
  scatter : ℝ × ℝ × ℝ
  tree : ℝ × ℝ × ℝ
  scale : ℝ
  rotation : ℝ × ℝ × ℝ

/-- The per-element body of the InstancedOrnaments.useFrame loop
(Experience.tsx lines 194-215): lerped position, advancing rotation,
pulsing uniform scale. Returns (position, rotation, scale vector). -/
def ornamentInstanceTransform (d : DualPosition) (i : ℕ) (time eased : ℝ) :
    (ℝ × ℝ × ℝ) × (ℝ × ℝ × ℝ) × (ℝ × ℝ × ℝ) :=
  let cx := lerp d.scatter.1 d.tree.1 eased
  let cy := lerp d.scatter.2.1 d.tree.2.1 eased
  let cz := lerp d.scatter.2.2 d.tree.2.2 eased
  let rotX := d.rotation.1 + time * 0.1
  let rotY := d.rotation.2.1 + time * 0.2
  let scaleMult := 1.0 + eased * 0.1 * Real.sin (time + (i : ℝ))
  ((cx, cy, cz), (rotX, rotY, d.rotation.2.2),
   (d.scale * scaleMult, d.scale * scaleMult, d.scale * scaleMult))

/-- One whole InstancedOrnaments.useFrame tick (Experience.tsx lines 173-218):
progress update with the snap check, easing of the updated progress, and the
unconditional per-element transform loop. Returns the new progress and the
per-element transforms. -/
def ornamentFrame (data : List DualPosition) (p target delta lerpSpeed time : ℝ) :
    ℝ × List ((ℝ × ℝ × ℝ) × (ℝ × ℝ × ℝ) × (ℝ × ℝ × ℝ)) :=
  let p2 := ornamentProgressUpdate p target delta lerpSpeed
  let eased := easeInOutCubic p2
  (p2, data.mapIdx fun i d => ornamentInstanceTransform d i time eased)

end

/-! Helper lemmas shared by the claim theorems. -/

/-- Norm of the spherical-to-Cartesian conversion used by both scatter
generators: the distance from the origin is the absolute sampled radius. -/
theorem sph_norm (r θ φ : ℝ) :
    distOrigin (r * Real.sin φ * Real.cos θ, r * Real.sin φ * Real.sin θ,
      r * Real.cos φ) = |r| := by
  show Real.sqrt ((r * Real.sin φ * Real.cos θ) ^ 2 + (r * Real.sin φ * Real.sin θ) ^ 2 +
      (r * Real.cos φ) ^ 2) = |r|
  have h : (r * Real.sin φ * Real.cos θ) ^ 2 + (r * Real.sin φ * Real.sin θ) ^ 2 +
      (r * Real.cos φ) ^ 2 = r ^ 2 := by
    linear_combination (r ^ 2 * Real.sin φ ^ 2) * Real.sin_sq_add_cos_sq θ +
      r ^ 2 * Real.sin_sq_add_cos_sq φ
  rw [h, Real.sqrt_sq_eq_abs]

/-- Distance from the vertical axis of a cone-layout point is the absolute
signed radius. -/
theorem axis_norm (a b θ : ℝ) :
    axisDist (Real.cos θ * a, b, Real.sin θ * a) = |a| := by
  show Real.sqrt ((Real.cos θ * a) ^ 2 + (Real.sin θ * a) ^ 2) = |a|
  have h : (Real.cos θ * a) ^ 2 + (Real.sin θ * a) ^ 2 = a ^ 2 := by
    linear_combination a ^ 2 * Real.sin_sq_add_cos_sq θ
  rw [h, Real.sqrt_sq_eq_abs]

/-- Closed form of the iterated foliage update toward target 1. -/
theorem foliageSteps_toward_one (delta : ℝ) (n : ℕ) : ∀ p : ℝ,
    foliageSteps 1 delta n p = 1 - (1 - delta * 1.5) ^ n * (1 - p) := by
  induction n with
  | zero => intro p; simp [foliageSteps]
  | succ n ih =>
      intro p
      simp only [foliageSteps]
      rw [ih]
      simp only [foliageProgressUpdate, lerp]
      ring

/-- Closed form of the iterated foliage update toward target 0. -/
theorem foliageSteps_toward_zero (delta : ℝ) (n : ℕ) : ∀ p : ℝ,
    foliageSteps 0 delta n p = (1 - delta * 1.5) ^ n * p := by
  induction n with
  | zero => intro p; simp [foliageSteps]
  | succ n ih =>
      intro p
      simp only [foliageSteps]
      rw [ih]
      simp only [foliageProgressUpdate, lerp]
      ring

/-- One foliage update keeps progress in [0,1] provided the step size
delta * 1.5 does not exceed 1. -/
theorem foliageProgressUpdate_mem_unit (p target delta : ℝ) (h0 : 0 ≤ p) (h1 : p ≤ 1)
    (ht : target = 0 ∨ target = 1) (hd0 : 0 ≤ delta * 1.5) (hd1 : delta * 1.5 ≤ 1) :
    0 ≤ foliageProgressUpdate p target delta ∧ foliageProgressUpdate p target delta ≤ 1 := by
  simp only [foliageProgressUpdate, lerp]
  rcases ht with ht | ht <;> subst ht <;> constructor <;> nlinarith

/-- One ornament update keeps progress in [0,1] provided the step size
delta * lerpSpeed does not exceed 1. -/
theorem ornamentProgressUpdate_mem_unit (p target delta lerpSpeed : ℝ)
    (h0 : 0 ≤ p) (h1 : p ≤ 1) (ht : target = 0 ∨ target = 1)
    (hd0 : 0 ≤ delta * lerpSpeed) (hd1 : delta * lerpSpeed ≤ 1) :
    0 ≤ ornamentProgressUpdate p target delta lerpSpeed ∧
    ornamentProgressUpdate p target delta lerpSpeed ≤ 1 := by
  simp only [ornamentProgressUpdate, lerp]
  split_ifs with h
  · rcases ht with ht | ht <;> subst ht <;> norm_num
  · rcases ht with ht | ht <;> subst ht <;> constructor <;> nlinarith

/-- A run of foliage updates with per-frame step sizes at most 1 keeps
progress in [0,1] from any start in [0,1]. -/
theorem foliageRun_mem_unit (frames : List (ℝ × ℝ))
    (hf : ∀ td ∈ frames, (td.1 = 0 ∨ td.1 = 1) ∧ 0 ≤ td.2 * 1.5 ∧ td.2 * 1.5 ≤ 1) :
    ∀ p : ℝ, 0 ≤ p → p ≤ 1 → 0 ≤ foliageRun p frames ∧ foliageRun p frames ≤ 1 := by
  induction frames with
  | nil => intro p h0 h1; simpa [foliageRun] using ⟨h0, h1⟩
  | cons td rest ih =>
      intro p h0 h1
      have htd := hf td (List.mem_cons_self td rest)
      have hstep := foliageProgressUpdate_mem_unit p td.1 td.2 h0 h1 htd.1 htd.2.1 htd.2.2
      have hrest : ∀ x ∈ rest, (x.1 = 0 ∨ x.1 = 1) ∧ 0 ≤ x.2 * 1.5 ∧ x.2 * 1.5 ≤ 1 :=
        fun x hx => hf x (List.mem_cons_of_mem td hx)
      simpa [foliageRun] using ih hrest (foliageProgressUpdate p td.1 td.2) hstep.1 hstep.2

/-! Claim theorems. -/

/-- C1 counterexample: at progress 0, target 1, delta 1 the foliage per-frame
update does not equal the exponential-approach form
progress + (target - progress) * (1 - exp(-lerpRate * delta)); the code yields
1.5 while the exponential form stays below 1. -/
theorem foliage_update_not_exponential_cex :
    foliageProgressUpdate 0 1 1 ≠ 0 + (1 - 0) * (1 - Real.exp (-(1.5 * 1))) := by
  have h := Real.exp_pos (-(1.5 * 1 : ℝ))
  simp only [foliageProgressUpdate, lerp]
  intro heq
  nlinarith

/-- C1 (corrected): both per-frame updates compute the naive linear form
progress + (target - progress) * (lerpRate * delta) (the ornament one in its
non-snap branch), and for every positive delta and progress distinct from
target that value differs from the exponential-approach form
progress + (target - progress) * (1 - exp(-lerpRate * delta)). -/
theorem progress_update_is_naive_form :
    (∀ p target delta : ℝ,
      foliageProgressUpdate p target delta = p + (target - p) * (1.5 * delta)) ∧
    (∀ p target delta lerpSpeed : ℝ, ¬ |p - target| < 0.001 →
      ornamentProgressUpdate p target delta lerpSpeed
        = p + (target - p) * (lerpSpeed * delta)) ∧
    (∀ p target delta : ℝ, 0 < delta → p ≠ target →
      foliageProgressUpdate p target delta
        ≠ p + (target - p) * (1 - Real.exp (-(1.5 * delta)))) := by
  refine ⟨?_, ?_, ?_⟩
  · intro p t d; simp only [foliageProgressUpdate, lerp]; ring
  · intro p t d s h; simp only [ornamentProgressUpdate, lerp, if_neg h]; ring
  · intro p t d hd hpt heq
    have hlt : 1 - Real.exp (-(1.5 * d)) < 1.5 * d := by
      have h2 := Real.add_one_lt_exp (show -(1.5 * d) ≠ 0 by intro h3; nlinarith)
      linarith
    simp only [foliageProgressUpdate, lerp] at heq
    have ht : t - p ≠ 0 := sub_ne_zero.mpr (Ne.symm hpt)
    have h3 : (t - p) * ((1.5 * d) - (1 - Real.exp (-(1.5 * d)))) = 0 := by
      linear_combination heq
    rcases mul_eq_zero.mp h3 with h4 | h4
    · exact ht h4
    · linarith

/-- C1 witness: the corrected statement instantiated at concrete inputs. -/
theorem progress_update_is_naive_form_witness :
    ornamentProgressUpdate 1 0 2 1 = 1 + (0 - 1) * (1 * 2) ∧
    foliageProgressUpdate 0 1 1 ≠ 0 + (1 - 0) * (1 - Real.exp (-(1.5 * 1))) :=
  ⟨progress_update_is_naive_form.2.1 1 0 2 1 (by norm_num),
   progress_update_is_naive_form.2.2 0 1 1 (by norm_num) (by norm_num)⟩

/-- C2 counterexample: starting from progress 0 a single foliage update with
target 1 and delta 1 leaves the interval [0,1] (the code applies no clamp and
the computed value is 1.5). -/
theorem foliage_progress_escapes_unit_interval :
    ¬ (foliageProgressUpdate 0 1 1 ≤ 1) := by
  simp only [foliageProgressUpdate, lerp]
  norm_num

/-- C2 (corrected): the updates never clamp, but progress stays in [0,1] for
single foliage and ornament updates and for any finite sequence of foliage
updates from start 0 whenever each frame's step size delta * lerpRate lies in
[0,1]. -/
theorem progress_stays_in_unit_interval :
    (∀ p target delta : ℝ, 0 ≤ p → p ≤ 1 → (target = 0 ∨ target = 1) →
      0 ≤ delta * 1.5 → delta * 1.5 ≤ 1 →
      0 ≤ foliageProgressUpdate p target delta ∧ foliageProgressUpdate p target delta ≤ 1) ∧
    (∀ p target delta lerpSpeed : ℝ, 0 ≤ p → p ≤ 1 → (target = 0 ∨ target = 1) →
      0 ≤ delta * lerpSpeed → delta * lerpSpeed ≤ 1 →
      0 ≤ ornamentProgressUpdate p target delta lerpSpeed ∧
      ornamentProgressUpdate p target delta lerpSpeed ≤ 1) ∧
    (∀ frames : List (ℝ × ℝ),
      (∀ td ∈ frames, (td.1 = 0 ∨ td.1 = 1) ∧ 0 ≤ td.2 * 1.5 ∧ td.2 * 1.5 ≤ 1) →
      0 ≤ foliageRun 0 frames ∧ foliageRun 0 frames ≤ 1) :=
  ⟨foliageProgressUpdate_mem_unit,
   ornamentProgressUpdate_mem_unit,
   fun frames hf => foliageRun_mem_unit frames hf 0 le_rfl zero_le_one⟩

/-- C2 witness: the corrected statement instantiated at a concrete run. -/
theorem progress_stays_in_unit_interval_witness :
    0 ≤ foliageRun 0 [(1, 0.016)] ∧ foliageRun 0 [(1, 0.016)] ≤ 1 :=
  progress_stays_in_unit_interval.2.2 [(1, 0.016)]
    (by
      intro td htd
      rw [List.mem_singleton] at htd
      subst htd
      exact ⟨Or.inr rfl, by norm_num, by norm_num⟩)

/-- C3 counterexample: the ornament scatter radius 10 + 10 * u matches no law
of the form R * cbrt(u): at u = 0 the code gives 10 while every such law
gives 0. -/
theorem ornament_scatter_not_cbrt_law :
    ornamentScatterRadius 0 = 10 ∧
    ¬ ∃ R : ℝ, ∀ u : ℝ, ornamentScatterRadius u = specScatterRadius R u := by
  constructor
  · simp [ornamentScatterRadius]
  · rintro ⟨R, hR⟩
    have h0 := hR 0
    have hz : (0 : ℝ) ^ ((1 : ℝ) / 3) = 0 := Real.zero_rpow (by norm_num)
    simp only [ornamentScatterRadius, specScatterRadius, hz, mul_zero] at h0
    norm_num at h0

/-- C3 (corrected): the foliage scatter radius follows the spec's
R * cbrt(u) law with R = 15 and every foliage scatter position lies within
distance 15 of the origin; the ornament scatter radius is 10 + 10 * u (a
spherical shell, not the cbrt law) and every ornament scatter position lies
within distance 20 of the origin. -/
theorem scatter_positions_bounded :
    (∀ u : ℝ, foliageScatterRadius u = specScatterRadius 15 u) ∧
    (∀ u1 u2 u3 : ℝ, 0 ≤ u1 → u1 < 1 → distOrigin (foliageScatter u1 u2 u3) ≤ 15) ∧
    (∀ u1 u2 u3 : ℝ, 0 ≤ u1 → u1 < 1 → distOrigin (ornamentScatter u1 u2 u3) ≤ 20) := by
  refine ⟨fun u => rfl, ?_, ?_⟩
  · intro u1 u2 u3 h0 h1
    have he : distOrigin (foliageScatter u1 u2 u3) = |foliageScatterRadius u1| :=
      sph_norm (foliageScatterRadius u1) (u2 * 2 * Real.pi) (Real.arccos (2 * u3 - 1))
    rw [he]
    have hr0 : 0 ≤ foliageScatterRadius u1 := by
      have := Real.rpow_nonneg h0 ((1 : ℝ) / 3)
      simp only [foliageScatterRadius]
      nlinarith
    rw [abs_of_nonneg hr0]
    have hle : u1 ^ ((1 : ℝ) / 3) ≤ 1 := Real.rpow_le_one h0 (le_of_lt h1) (by norm_num)
    simp only [foliageScatterRadius]
    nlinarith
  · intro u1 u2 u3 h0 h1
    have he : distOrigin (ornamentScatter u1 u2 u3) = |ornamentScatterRadius u1| :=
      sph_norm (ornamentScatterRadius u1) (u2 * 2 * Real.pi) (Real.arccos (2 * u3 - 1))
    rw [he]
    have hr0 : 0 ≤ ornamentScatterRadius u1 := by
      simp only [ornamentScatterRadius]; linarith
    rw [abs_of_nonneg hr0]
    simp only [ornamentScatterRadius]
    linarith

/-- C3 witness: the corrected statement instantiated at concrete samples. -/
theorem scatter_positions_bounded_witness :
    distOrigin (foliageScatter 0 0 0) ≤ 15 ∧ distOrigin (ornamentScatter 0 0 0) ≤ 20 :=
  ⟨scatter_positions_bounded.2.1 0 0 0 (by norm_num) (by norm_num),
   scatter_positions_bounded.2.2 0 0 0 (by norm_num) (by norm_num)⟩

/-- C4 counterexample: the turbulence term is added to the vertical (y)
coordinate, not a horizontal one: with scatter x = pi/2, time 0, seed 0 and
progress 0 the output y is 0.1, not the breath-only value prescribed by the
claim for y. -/
theorem foliage_turbulence_vertical_cex :
    (foliageVertex (Real.pi / 2, 0, 0) (0, 0, 0) 0 0 0).2.1 ≠
      mixG 0 0 (easeInOutCubic 0) + Real.sin (0 * 2.0 + 0 * 10.0) * 0.05 := by
  have he : easeInOutCubic 0 = 0 := by
    simp only [easeInOutCubic]
    rw [if_pos (show (0 : ℝ) < 0.5 by norm_num)]
    norm_num
  simp only [foliageVertex, mixG, he]
  norm_num [Real.sin_pi_div_two]

/-- C4 (corrected): the foliage vertex output is the eased-lerp base position
with the drift 0.02 * cos(1.5t + seed) added to x and BOTH the breathing
offset 0.05 * sin(2t + seed * 10) and the turbulence
0.1 * sin(t + scatterX) * (1 - eased(progress)) added to the vertical
coordinate y; turbulence is vertical, not horizontal, and fades with
eased progress. -/
theorem foliageVertex_formula (s t3 : ℝ × ℝ × ℝ) (uTime aRandom uProgress : ℝ) :
    foliageVertex s t3 uTime aRandom uProgress =
      (mixG s.1 t3.1 (easeInOutCubic uProgress) + 0.02 * Real.cos (uTime * 1.5 + aRandom),
       mixG s.2.1 t3.2.1 (easeInOutCubic uProgress)
         + 0.05 * Real.sin (uTime * 2.0 + aRandom * 10.0)
         + 0.1 * Real.sin (uTime + s.1) * (1 - easeInOutCubic uProgress),
       mixG s.2.2 t3.2.2 (easeInOutCubic uProgress)) := by
  simp only [foliageVertex, Prod.mk.injEq]
  exact ⟨by ring, by ring, trivial⟩

/-- C5: when an ornament frame begins within 0.001 of the target, progress is
snapped exactly to the target and the per-element transforms (advancing
rotation and pulsing scale) are still recomputed for the current time and the
snapped progress, not skipped. -/
theorem ornament_snap_keeps_jitter (data : List DualPosition)
    (p target delta lerpSpeed time : ℝ) (h : |p - target| < 0.001) :
    ornamentFrame data p target delta lerpSpeed time =
      (target, data.mapIdx fun i d =>
        ornamentInstanceTransform d i time (easeInOutCubic target)) := by
  simp only [ornamentFrame, ornamentProgressUpdate, if_pos h]

/-- C5 witness: the snap-frame statement instantiated at a concrete element. -/
theorem ornament_snap_keeps_jitter_witness :
    ornamentFrame [⟨(0, 0, 0), (1, 2, 3), 1, (0, 0, 0)⟩] 1 1 0.016 1.5 0 =
      (1, [(⟨(0, 0, 0), (1, 2, 3), 1, (0, 0, 0)⟩ : DualPosition)].mapIdx
        fun i d => ornamentInstanceTransform d i 0 (easeInOutCubic 1)) :=
  ornament_snap_keeps_jitter [⟨(0, 0, 0), (1, 2, 3), 1, (0, 0, 0)⟩] 1 1 0.016 1.5 0
    (by norm_num)

/-- C6 counterexample: with delta 0.016 and the foliage rate 1.5, one step
toward 1 followed by one step toward 0 moves progress from 0 to 0.023424,
which is not within 1e-2 of the start. -/
theorem foliage_updown_not_reversible :
    ¬ (|foliageSteps 0 0.016 1 (foliageSteps 1 0.016 1 0) - 0| ≤ 1 / 100) := by
  rw [foliageSteps_toward_zero, foliageSteps_toward_one]
  rw [abs_le]
  norm_num

/-- C6 (corrected): the up-then-down excursion is not reversible to within
1e-2; what holds is that from start 0, for every step count N and every delta
with step size delta * 1.5 in [0,1], N steps toward 1 followed by N steps
toward 0 return progress to within 1/4 of the start. -/
theorem foliage_updown_bounded (delta : ℝ) (h0 : 0 ≤ delta * 1.5) (h1 : delta * 1.5 ≤ 1)
    (N : ℕ) :
    |foliageSteps 0 delta N (foliageSteps 1 delta N 0) - 0| ≤ 1 / 4 := by
  rw [foliageSteps_toward_zero, foliageSteps_toward_one]
  have hx0 : (0 : ℝ) ≤ (1 - delta * 1.5) ^ N := pow_nonneg (by linarith) N
  have hx1 : (1 - delta * 1.5) ^ N ≤ 1 := pow_le_one₀ (by linarith) (by linarith)
  rw [abs_le]
  constructor <;> nlinarith [sq_nonneg ((1 - delta * 1.5) ^ N - 1 / 2)]

/-- C6 witness: the corrected bound instantiated at delta 0.016, N = 1. -/
theorem foliage_updown_bounded_witness :
    |foliageSteps 0 0.016 1 (foliageSteps 1 0.016 1 0) - 0| ≤ 1 / 4 :=
  foliage_updown_bounded 0.016 (by norm_num) (by norm_num) 1

set_option exponentiation.threshold 400 in
set_option maxRecDepth 8000 in
/-- C7: from progress 0 with the target signal at TREE_SHAPE, 300 iterations
of the foliage per-frame update with delta 0.016 and rate 1.5 exceed 0.99. -/
theorem foliage_progress_converges :
    foliageSteps (targetFor TreeState.TREE_SHAPE) 0.016 300 0 > 0.99 := by
  have htf : targetFor TreeState.TREE_SHAPE = 1 := by simp [targetFor]
  rw [htf, foliageSteps_toward_one]
  have hnat : (100 : ℕ) * 122 ^ 300 < 125 ^ 300 := by decide
  have hc : ((100 : ℝ)) * 122 ^ 300 < 125 ^ 300 := by exact_mod_cast hnat
  have hq : ((122 : ℝ) / 125) ^ 300 < 1 / 100 := by
    rw [div_pow, div_lt_div_iff₀ (by positivity) (by norm_num)]
    linarith
  have h976 : (1 : ℝ) - 0.016 * 1.5 = 122 / 125 := by norm_num
  rw [h976]
  nlinarith [hq]

/-- C8: the cubic ease-in-out satisfies eased(0) = 0, eased(1) = 1,
eased(0.5) = 0.5, and is monotonically non-decreasing on [0,1]. -/
theorem easeInOutCubic_endpoints_and_mono :
    easeInOutCubic 0 = 0 ∧ easeInOutCubic 1 = 1 ∧ easeInOutCubic 0.5 = 0.5 ∧
    ∀ p q : ℝ, 0 ≤ p → p ≤ q → q ≤ 1 → easeInOutCubic p ≤ easeInOutCubic q := by
  refine ⟨?_, ?_, ?_, ?_⟩
  · simp only [easeInOutCubic]
    rw [if_pos (show (0 : ℝ) < 0.5 by norm_num)]
    norm_num
  · simp only [easeInOutCubic]
    rw [if_neg (show ¬ (1 : ℝ) < 0.5 by norm_num)]
    norm_num
  · simp only [easeInOutCubic]
    rw [if_neg (show ¬ (0.5 : ℝ) < 0.5 by norm_num)]
    norm_num
  · intro p q hp hpq hq1
    unfold easeInOutCubic
    split_ifs with h1 h2 h2
    · nlinarith [mul_nonneg (sub_nonneg.mpr hpq)
        (show (0 : ℝ) ≤ p * p + p * q + q * q by
          nlinarith [sq_nonneg (p + q), sq_nonneg p, sq_nonneg q])]
    · have hq : (0.5 : ℝ) ≤ q := not_lt.mp h2
      have hb0 : (0 : ℝ) ≤ -2.0 * q + 2.0 := by linarith
      have hb1 : -2.0 * q + 2.0 ≤ 1 := by linarith
      have hb : (-2.0 * q + 2.0) ^ 3 ≤ 1 := pow_le_one₀ hb0 hb1
      have hp3 : 4.0 * p * p * p ≤ 1 / 2 := by nlinarith [mul_nonneg hp hp]
      linarith
    · linarith [lt_of_le_of_lt hpq h2]
    · have hb0 : (0 : ℝ) ≤ -2.0 * q + 2.0 := by linarith
      have hle : -2.0 * q + 2.0 ≤ -2.0 * p + 2.0 := by linarith
      have := pow_le_pow_left₀ hb0 hle 3
      linarith

/-- C8 witness: monotonicity instantiated at 0.25 and 0.75. -/
theorem easeInOutCubic_endpoints_and_mono_witness :
    easeInOutCubic 0.25 ≤ easeInOutCubic 0.75 :=
  easeInOutCubic_endpoints_and_mono.2.2.2 0.25 0.75 (by norm_num) (by norm_num) (by norm_num)

/-- C9: every foliage tree position has y in [-7, 7] and distance from the
vertical axis at most 5 + 0.5/2, and every ornament tree position has y in
[-6, 6] and axis distance at most 4.5 + 0.2, for all random samples in
[0,1). -/
theorem tree_positions_bounded :
    (∀ (i : ℕ) (hNorm u : ℝ), 0 ≤ hNorm → hNorm < 1 → 0 ≤ u → u < 1 →
      -(14 / 2) ≤ (foliageTreePos i hNorm u).2.1 ∧ (foliageTreePos i hNorm u).2.1 ≤ 14 / 2 ∧
      0 ≤ axisDist (foliageTreePos i hNorm u) ∧
      axisDist (foliageTreePos i hNorm u) ≤ 5 + 0.5 / 2) ∧
    (∀ hNorm uAngle : ℝ, 0 ≤ hNorm → hNorm < 1 →
      -(12 / 2) ≤ (ornamentTreePos hNorm uAngle).2.1 ∧
      (ornamentTreePos hNorm uAngle).2.1 ≤ 12 / 2 ∧
      0 ≤ axisDist (ornamentTreePos hNorm uAngle) ∧
      axisDist (ornamentTreePos hNorm uAngle) ≤ 4.5 + 0.2) := by
  constructor
  · intro i hNorm u hh0 hh1 hu0 hu1
    have hax : axisDist (foliageTreePos i hNorm u) = |(1 - hNorm) * 5 + (u - 0.5) * 0.5| :=
      axis_norm ((1 - hNorm) * 5 + (u - 0.5) * 0.5) (hNorm * 14 - 14 / 2)
        ((i : ℝ) * 137.5 * (Real.pi / 180))
    have hy : (foliageTreePos i hNorm u).2.1 = hNorm * 14 - 14 / 2 := rfl
    refine ⟨by rw [hy]; linarith, by rw [hy]; linarith, ?_, ?_⟩
    · rw [hax]; exact abs_nonneg _
    · rw [hax]
      have habs : |(1 - hNorm) * 5 + (u - 0.5) * 0.5| ≤ 5.25 :=
        abs_le.mpr ⟨by nlinarith, by nlinarith⟩
      linarith
  · intro hNorm uAngle hh0 hh1
    have hax : axisDist (ornamentTreePos hNorm uAngle) = |(1 - hNorm) * 4.5 + 0.2| :=
      axis_norm ((1 - hNorm) * 4.5 + 0.2) (hNorm * 12 - 12 / 2) (uAngle * Real.pi * 2)
    have hy : (ornamentTreePos hNorm uAngle).2.1 = hNorm * 12 - 12 / 2 := rfl
    refine ⟨by rw [hy]; linarith, by rw [hy]; linarith, ?_, ?_⟩
    · rw [hax]; exact abs_nonneg _
    · rw [hax]
      have habs : |(1 - hNorm) * 4.5 + 0.2| ≤ 4.7 := abs_le.mpr ⟨by nlinarith, by nlinarith⟩
      linarith

/-- C9 witness: the bounds instantiated at concrete samples. -/
theorem tree_positions_bounded_witness :
    axisDist (foliageTreePos 0 0 0) ≤ 5 + 0.5 / 2 ∧
    axisDist (ornamentTreePos 0 0) ≤ 4.5 + 0.2 :=
  ⟨(tree_positions_bounded.1 0 0 0 (by norm_num) (by norm_num) (by norm_num)
      (by norm_num)).2.2.2,
   (tree_positions_bounded.2 0 0 (by norm_num) (by norm_num)).2.2.2⟩

/-- C10: calling the store's toggleState twice returns treeState to its
original value, and every single call sets isMorphing to true regardless of
the prior state. -/
theorem toggleState_involution_and_sets_morphing (s : AppState) :
    (toggleState (toggleState s)).treeState = s.treeState ∧
    (toggleState s).isMorphing = true := by
  rcases s with ⟨ts, m⟩
  cases ts <;> simp [toggleState]

end Morph
